import Mathlib

/-!
Verification development for the Proyecto-Redes social-network backend.

The development shallowly embeds the backend's business logic:
`AuthService` (registration age/password checks, login), the
`PublicacionesService` (posts, likes, comments, soft delete) and the
`EstadisticasService` aggregation over posts.  Mongo `ObjectId` values are
modelled as `Nat`, `Date` values as `Nat` (milliseconds) or as a
year/month/day record where the code does calendar arithmetic, and the
database collection as a `List` of documents.  Each service method that
can throw a Nest `HttpException` is embedded as a function into `Except`.
-/

namespace ProyectoRedes

/-! ## Auth: data and the password / age validations (auth.service.ts) -/

/-- `AuthService.validatePassword`: `/[A-Z]/`, `/\d/` and `length >= 8`.
`Char.isUpper` and `Char.isDigit` are exactly the ASCII ranges the two
regexes match. -/
def validatePassword (password : String) : Bool :=
  let hasUppercase := password.data.any (fun c => c.isUpper)
  let hasNumber := password.data.any (fun c => c.isDigit)
  let hasMinLength := decide (8 ≤ password.length)
  hasUppercase && hasNumber && hasMinLength

/-- A stored user record (users collection).  The password field stands
for the stored bcrypt hash. -/
structure User where
  uid : Nat
  nombre : String
  apellido : String
  correo : String
  nombreUsuario : String
  contrasena : String
  activo : Bool
  perfil : String
  imagenPerfil : Option String
deriving DecidableEq

/-- An embedded comment subdocument.  `cid` is the subdocument `_id`.
The schema declares exactly `comentario`, `autor` and `fecha`; it has no
`modificado` path (and no `strict: false`), so under Mongoose's strict
mode a stored comment can never hold that flag — the service's writes to
it are stripped on cast/save and are therefore absent here. -/
structure Comentario where
  cid : Nat
  comentario : String
  autor : Nat
  fecha : Nat
deriving DecidableEq

/-- A post document. -/
structure Publicacion where
  pid : Nat
  titulo : String
  contenido : String
  imagen : Option String
  autor : Nat
  likes : List Nat
  comentarios : List Comentario
  fechaCreacion : Nat
  eliminada : Bool
deriving DecidableEq

inductive ServiceError where
  | notFound (mensaje : String)
  | forbidden (mensaje : String)
deriving DecidableEq

/-- `Model.findById` over the embedded collection. -/
def findById (store : List Publicacion) (id : Nat) : Option Publicacion :=
  store.find? (fun p => p.pid == id)

/-- `Model.findByIdAndUpdate`: every document whose `_id` matches gets the
update applied (Mongo `_id` is unique, so at most one in practice). -/
def updateById (store : List Publicacion) (id : Nat) (f : Publicacion → Publicacion) :
    List Publicacion :=
  store.map (fun p => if p.pid == id then f p else p)

/-- Mongo `$addToSet`: append the value unless already present. -/
def addToSet (l : List Nat) (x : Nat) : List Nat :=
  if l.contains x then l else l ++ [x]

/-- Mongo `$pull`: remove every occurrence of the value. -/
def pull (l : List Nat) (x : Nat) : List Nat :=
  l.filter (fun y => !(y == x))

/-! ## Publicaciones: sorting

`obtenerTodas` sorts in MongoDB with `.sort({likes: -1, fechaCreacion: -1})`.
`likes` is an *array* field; per MongoDB's documented semantics a
descending sort on an array field uses the array's largest element as the
document's sort key (an empty or missing array sorts below every element),
NOT the array's length.  `maxLike` is that sort key. -/

/-- The sort key MongoDB uses for a descending sort on the `likes` array:
its largest element, `⊥` for the empty array. -/
def maxLike (likes : List Nat) : WithBot Nat :=
  likes.foldr (fun a m => max (a : WithBot Nat) m) ⊥

/-- `p` may precede `q` under `.sort({likes: -1, fechaCreacion: -1})`:
larger `maxLike` first, ties by later creation first. -/
def antesPorLikes (p q : Publicacion) : Prop :=
  maxLike q.likes < maxLike p.likes ∨
    (maxLike q.likes = maxLike p.likes ∧ q.fechaCreacion ≤ p.fechaCreacion)

instance : DecidableRel antesPorLikes := fun _ _ =>
  inferInstanceAs (Decidable (_ < _ ∨ (_ = _ ∧ _ ≤ _)))

instance : IsTotal Publicacion antesPorLikes := by
  constructor
  intro a b
  unfold antesPorLikes
  rcases lt_trichotomy (maxLike a.likes) (maxLike b.likes) with h | h | h
  · exact Or.inr (Or.inl h)
  · rcases Nat.le_total b.fechaCreacion a.fechaCreacion with hf | hf
    · exact Or.inl (Or.inr ⟨h.symm, hf⟩)
    · exact Or.inr (Or.inr ⟨h, hf⟩)
  · exact Or.inl (Or.inl h)

instance : IsTrans Publicacion antesPorLikes := by
  constructor
  intro a b c hab hbc
  unfold antesPorLikes at *
  rcases hab with hab | ⟨hab, hab'⟩ <;> rcases hbc with hbc | ⟨hbc, hbc'⟩
  · exact Or.inl (lt_trans hbc hab)
  · exact Or.inl (lt_of_le_of_lt (le_of_eq hbc) hab)
  · exact Or.inl (lt_of_lt_of_le hbc (le_of_eq hab))
  · exact Or.inr ⟨hbc.trans hab, le_trans hbc' hab'⟩

/-- Descending order on a `Nat`-valued key: `x` may precede `y` when its
key is at least `y`'s.  Used for every "newest first" / "largest count
first" sort of the services. -/
def geNat {α : Type} (key : α → Nat) (x y : α) : Prop :=
  key y ≤ key x

instance {α : Type} (key : α → Nat) : DecidableRel (geNat key) := fun _ _ =>
  inferInstanceAs (Decidable (_ ≤ _))

instance {α : Type} (key : α → Nat) : IsTotal α (geNat key) :=
  ⟨fun a b => Nat.le_total (key b) (key a)⟩

instance {α : Type} (key : α → Nat) : IsTrans α (geNat key) :=
  ⟨fun _ _ _ hab hbc => le_trans hbc hab⟩

/-- The `ordenarPor` query value. -/
inductive OrdenarPor where
  | fecha
  | likes
deriving DecidableEq

/-- The sort order `obtenerTodas` hands to Mongo:
`{likes: -1, fechaCreacion: -1}` or `{fechaCreacion: -1}`. -/
def relacionOrden : OrdenarPor → Publicacion → Publicacion → Prop
  | .likes => antesPorLikes
  | .fecha => geNat Publicacion.fechaCreacion

instance : (o : OrdenarPor) → DecidableRel (relacionOrden o)
  | .likes => inferInstanceAs (DecidableRel antesPorLikes)
  | .fecha => inferInstanceAs (DecidableRel (geNat Publicacion.fechaCreacion))

/-! ## Publicaciones: service operations (publicaciones.service.ts) -/

/-- `PublicacionesService.obtenerTodas`: filter out soft-deleted posts,
optionally filter by author, sort (per the Mongo semantics above),
then `skip`/`limit` with defaults 0 and 10. -/
def obtenerTodas (store : List Publicacion) (ordenarPor : Option OrdenarPor)
    (usuarioId : Option Nat) (offset limit : Option Nat) : List Publicacion :=
  let offsetNum := offset.getD 0
  let limitNum := limit.getD 10
  let ordenamiento := ordenarPor.getD .fecha
  let filtradas := store.filter fun p =>
    !p.eliminada && (match usuarioId with
      | none => true
      | some u => p.autor == u)
  let ordenadas := List.insertionSort (relacionOrden ordenamiento) filtradas
  (ordenadas.drop offsetNum).take limitNum

/-- `PublicacionesService.obtenerPorId`: not-found when absent or
soft-deleted. -/
def obtenerPorId (store : List Publicacion) (id : Nat) : Except ServiceError Publicacion :=
  match findById store id with
  | none => .error (.notFound "Publicación no encontrada")
  | some publicacion =>
    if publicacion.eliminada then .error (.notFound "Publicación no encontrada")
    else .ok publicacion

/-- The update DTO: each field optional. -/
structure ActualizarPublicacionDto where
  titulo : Option String
  contenido : Option String
  imagen : Option String
deriving DecidableEq

/-- `findByIdAndUpdate(id, dto)`: set exactly the provided fields. -/
def aplicarActualizacion (dto : ActualizarPublicacionDto) (p : Publicacion) : Publicacion :=
  { p with
    titulo := dto.titulo.getD p.titulo
    contenido := dto.contenido.getD p.contenido
    imagen := match dto.imagen with
      | some i => some i
      | none => p.imagen }

/-- `PublicacionesService.actualizar`: not-found when absent/deleted,
forbidden unless the requester is the author. -/
def actualizar (store : List Publicacion) (id : Nat) (dto : ActualizarPublicacionDto)
    (usuarioId : Nat) : Except ServiceError (List Publicacion) :=
  match findById store id with
  | none => .error (.notFound "Publicación no encontrada")
  | some publicacion =>
    if publicacion.eliminada then .error (.notFound "Publicación no encontrada")
    else if !(publicacion.autor == usuarioId) then
      .error (.forbidden "No tienes permisos para actualizar esta publicación")
    else .ok (updateById store id (aplicarActualizacion dto))

/-- `PublicacionesService.eliminar` (soft delete): the author or an
`administrador` may delete; the flag is set, nothing is removed. -/
def eliminar (store : List Publicacion) (id usuarioId : Nat) (perfil : Option String) :
    Except ServiceError (List Publicacion) :=
  match findById store id with
  | none => .error (.notFound "Publicación no encontrada")
  | some publicacion =>
    if publicacion.eliminada then .error (.notFound "Publicación no encontrada")
    else if !(publicacion.autor == usuarioId) && !(perfil == some "administrador") then
      .error (.forbidden "No tienes permisos para eliminar esta publicación")
    else .ok (updateById store id (fun p => { p with eliminada := true }))

/-- `PublicacionesService.darLike`: forbidden when the user already likes
the post, otherwise an atomic `$addToSet`. -/
def darLike (store : List Publicacion) (id usuarioId : Nat) :
    Except ServiceError (List Publicacion) :=
  match findById store id with
  | none => .error (.notFound "Publicación no encontrada")
  | some publicacion =>
    if publicacion.eliminada then .error (.notFound "Publicación no encontrada")
    else if publicacion.likes.any (fun like => like == usuarioId) then
      .error (.forbidden "Ya le diste like a esta publicación")
    else .ok (updateById store id (fun p => { p with likes := addToSet p.likes usuarioId }))

/-- `PublicacionesService.quitarLike`: forbidden when the user does not
like the post, otherwise an atomic `$pull`. -/
def quitarLike (store : List Publicacion) (id usuarioId : Nat) :
    Except ServiceError (List Publicacion) :=
  match findById store id with
  | none => .error (.notFound "Publicación no encontrada")
  | some publicacion =>
    if publicacion.eliminada then .error (.notFound "Publicación no encontrada")
    else if !(publicacion.likes.any (fun like => like == usuarioId)) then
      .error (.forbidden "No le has dado like a esta publicación")
    else .ok (updateById store id (fun p => { p with likes := pull p.likes usuarioId }))

/-- `PublicacionesService.agregarComentario`: push a fresh comment with a
server-assigned timestamp.  `ahora` and `freshId` stand for `new Date()`
and the subdocument `_id` Mongo mints.  The code also pushes
`modificado: false`, but that is not a schema path and subdocument
casting strips it before the save. -/
def agregarComentario (store : List Publicacion) (id : Nat) (texto : String)
    (usuarioId ahora freshId : Nat) : Except ServiceError (List Publicacion) :=
  match findById store id with
  | none => .error (.notFound "Publicación no encontrada")
  | some publicacion =>
    if publicacion.eliminada then .error (.notFound "Publicación no encontrada")
    else .ok (updateById store id (fun p =>
      { p with comentarios := p.comentarios ++
          [{ cid := freshId, comentario := texto, autor := usuarioId,
             fecha := ahora }] }))

/-- The `find`/`findIndex` + index-assignment of `editarComentario`:
rewrite the first comment whose `_id` matches, setting its text, and
leave everything else in place.  The code also assigns
`modificado = true` through an `as any` cast, but `modificado` is not a
schema path, so `save()` drops that assignment — only the text write is
persisted. -/
def actualizarComentarioEnLista (cid : Nat) (nuevoTexto : String) :
    List Comentario → List Comentario
  | [] => []
  | c :: cs =>
    if c.cid == cid then { c with comentario := nuevoTexto } :: cs
    else c :: actualizarComentarioEnLista cid nuevoTexto cs

/-- `PublicacionesService.editarComentario`: not-found for a missing post
or comment, forbidden unless the requester authored the comment; on
success the mutated document is saved back. -/
def editarComentario (store : List Publicacion) (publicacionId comentarioId : Nat)
    (nuevoTexto : String) (usuarioId : Nat) : Except ServiceError (List Publicacion) :=
  match findById store publicacionId with
  | none => .error (.notFound "Publicación no encontrada")
  | some publicacion =>
    if publicacion.eliminada then .error (.notFound "Publicación no encontrada")
    else
      match publicacion.comentarios.find? (fun c => c.cid == comentarioId) with
      | none => .error (.notFound "Comentario no encontrado")
      | some comentario =>
        if !(comentario.autor == usuarioId) then
          .error (.forbidden "No tienes permisos para editar este comentario")
        else .ok (updateById store publicacionId (fun p =>
          { p with comentarios :=
              actualizarComentarioEnLista comentarioId nuevoTexto p.comentarios }))

/-! ## Publicaciones: listing comments -/

/-- The author projection nested in each listed comment
(`populate('comentarios.autor', ...)` plus the response formatting). -/
structure AutorView where
  id : Nat
  nombre : String
  apellido : String
  nombreUsuario : String
  imagenPerfil : Option String
deriving DecidableEq

/-- One formatted comment of the `obtenerComentarios` response. -/
structure ComentarioView where
  id : Nat
  comentario : String
  fecha : Nat
  modificado : Bool
  autor : Option AutorView
deriving DecidableEq

/-- The `obtenerComentarios` response envelope. -/
structure ComentariosResult where
  comentarios : List ComentarioView
  total : Nat
  offset : Nat
  limit : Nat
deriving DecidableEq

/-- The per-comment response formatting, author resolved against the
users collection as `populate` does.  The response field is
`comentario.modificado || false`; the stored subdocument has no
`modificado` path, so the reported value is always `false`. -/
def formatearComentario (users : List User) (c : Comentario) : ComentarioView :=
  { id := c.cid
    comentario := c.comentario
    fecha := c.fecha
    modificado := false
    autor := match users.find? (fun u => u.uid == c.autor) with
      | some u => some { id := u.uid, nombre := u.nombre, apellido := u.apellido,
                         nombreUsuario := u.nombreUsuario, imagenPerfil := u.imagenPerfil }
      | none => none }

/-- `PublicacionesService.obtenerComentarios`: sort the embedded comments
newest first (JS `Array.prototype.sort` is stable, as is
`List.insertionSort`), paginate with defaults 0/10, format each comment,
and report the unpaginated total. -/
def obtenerComentarios (store : List Publicacion) (users : List User)
    (publicacionId : Nat) (offset limit : Option Nat) :
    Except ServiceError ComentariosResult :=
  match findById store publicacionId with
  | none => .error (.notFound "Publicación no encontrada")
  | some publicacion =>
    if publicacion.eliminada then .error (.notFound "Publicación no encontrada")
    else
      let offsetNum := offset.getD 0
      let limitNum := limit.getD 10
      let comentariosOrdenados :=
        List.insertionSort (geNat Comentario.fecha) publicacion.comentarios
      let comentariosPaginados := (comentariosOrdenados.drop offsetNum).take limitNum
      .ok { comentarios := comentariosPaginados.map (formatearComentario users)
            total := publicacion.comentarios.length
            offset := offsetNum
            limit := limitNum }

/-! ## Estadisticas (estadisticas.service.ts) -/

/-- A raw post document as the aggregation pipeline reads it: the
`comentarios` array may be missing (`$ifNull` guards it). -/
structure PublicacionCruda where
  pid : Nat
  contenido : String
  autor : Nat
  comentarios : Option (List Comentario)
deriving DecidableEq

/-- One row of the top-posts statistics view. -/
structure FilaComentariosPorPublicacion where
  pid : Nat
  contenido : String
  totalComentarios : Nat
  nombreUsuario : String
deriving DecidableEq

/-- The `$project` row of the view: first 50 characters of the body,
`$size` of `$ifNull(comentarios, [])`, and the joined author's
username. -/
def filaDe (p : PublicacionCruda) (u : User) : FilaComentariosPorPublicacion :=
  { pid := p.pid
    contenido := p.contenido.take 50
    totalComentarios := (p.comentarios.getD []).length
    nombreUsuario := u.nombreUsuario }

/-- `EstadisticasService.getComentariosPorPublicacion`: project each
post's row, `$lookup`+`$unwind` the author (a post whose author is
absent from the users collection is dropped), sort by count descending,
limit 20. -/
def getComentariosPorPublicacion (pubs : List PublicacionCruda) (users : List User) :
    List FilaComentariosPorPublicacion :=
  let unidas := pubs.filterMap fun p =>
    match users.find? (fun u => u.uid == p.autor) with
    | some u => some (filaDe p u)
    | none => none
  (List.insertionSort (geNat FilaComentariosPorPublicacion.totalComentarios) unidas).take 20

/-! ## Helper lemmas -/

theorem findById_updateById (store : List Publicacion) (id : Nat)
    (f : Publicacion → Publicacion) (hf : ∀ p, (f p).pid = p.pid) :
    findById (updateById store id f) id = (findById store id).map f := by
  induction store with
  | nil => rfl
  | cons p ps ih =>
    unfold findById updateById at *
    by_cases hp : p.pid = id
    · simp [hp, hf]
    · simpa [hp] using ih

theorem length_updateById (store : List Publicacion) (id : Nat)
    (f : Publicacion → Publicacion) :
    (updateById store id f).length = store.length := by
  simp [updateById]

theorem map_editar_id (cid : Nat) (txt : String) (l : List Comentario)
    (h : ∀ d ∈ l, d.cid ≠ cid) :
    l.map (fun d =>
        if d.cid = cid then { d with comentario := txt } else d) = l := by
  induction l with
  | nil => rfl
  | cons d ds ih =>
    rw [List.map_cons, if_neg (h d (List.mem_cons_self d ds)),
      ih (fun e he => h e (List.mem_cons_of_mem d he))]

theorem actualizarComentarioEnLista_eq_map (cid : Nat) (txt : String) (l : List Comentario)
    (h : (l.map Comentario.cid).Nodup) :
    actualizarComentarioEnLista cid txt l =
      l.map (fun d =>
        if d.cid = cid then { d with comentario := txt } else d) := by
  induction l with
  | nil => rfl
  | cons c cs ih =>
    rw [List.map_cons] at h
    rcases List.nodup_cons.mp h with ⟨hnotin, hcs⟩
    by_cases hc : c.cid = cid
    · have hnone : ∀ d ∈ cs, d.cid ≠ cid := by
        intro d hd hdc
        exact hnotin (hc ▸ hdc ▸ List.mem_map_of_mem Comentario.cid hd)
      simp only [actualizarComentarioEnLista, List.map_cons, if_pos hc,
        if_pos (beq_iff_eq.mpr hc), map_editar_id cid txt cs hnone]
    · simp only [actualizarComentarioEnLista, List.map_cons, if_neg hc,
        if_neg (by simpa using hc : ¬(c.cid == cid) = true), ih hcs]

/-! ## C2: the registration password policy -/

theorem caracterizacionIsUpper (c : Char) : c.isUpper = true ↔ 'A' ≤ c ∧ c ≤ 'Z' := by
  simp [Char.isUpper, Char.le_def]

theorem caracterizacionIsDigit (c : Char) : c.isDigit = true ↔ '0' ≤ c ∧ c ≤ '9' := by
  simp [Char.isDigit, Char.le_def]

/-- C2.  `validatePassword` accepts exactly the strings of length at
least 8 with an uppercase ASCII letter and an ASCII digit, and the four
example passwords of the spec behave as stated. -/
theorem validatePassword_politica :
    (∀ password : String,
        validatePassword password = true ↔
          8 ≤ password.length ∧
            (∃ c ∈ password.data, 'A' ≤ c ∧ c ≤ 'Z') ∧
            (∃ c ∈ password.data, '0' ≤ c ∧ c ≤ '9')) ∧
    validatePassword "Password1" = true ∧
    validatePassword "password1" = false ∧
    validatePassword "Password" = false ∧
    validatePassword "Pass1" = false := by
  refine ⟨?_, by decide, by decide, by decide, by decide⟩
  intro password
  unfold validatePassword
  simp only [Bool.and_eq_true, List.any_eq_true, decide_eq_true_eq,
    caracterizacionIsUpper, caracterizacionIsDigit]
  tauto

/-! ## C3: the minimum-age rule of registration -/

/-- A non-deleted post with the given id, like set and creation time. -/
def publicacionDePrueba (pid : Nat) (likes : List Nat) (fecha : Nat) : Publicacion :=
  { pid := pid, titulo := "t", contenido := "c", imagen := none, autor := 1,
    likes := likes, comentarios := [], fechaCreacion := fecha, eliminada := false }

/-- Three non-deleted posts with like counts 3, 1 and 2.  The largest
like `ObjectId` belongs to the post with only one like. -/
def tiendaLikes : List Publicacion :=
  [publicacionDePrueba 1 [1, 2, 30] 3,
   publicacionDePrueba 2 [40] 2,
   publicacionDePrueba 3 [5, 6] 1]

/-- C1.  Sorting with `{likes: -1}` sorts the array field by its largest
element, so the like counts come back as `[1, 3, 2]`, not the `[3, 2, 1]`
the spec (and the code's own comment) promise. -/
theorem obtenerTodas_likes_no_ordena_por_conteo :
    (obtenerTodas tiendaLikes (some .likes) none none none).map (fun p => p.likes.length)
        = [1, 3, 2] ∧
    (obtenerTodas tiendaLikes (some .likes) none none none).map (fun p => p.likes.length)
        ≠ [3, 2, 1] := by
  constructor
  · decide
  · decide

/-! ## C4: like / unlike discipline -/

/-- C4.  A duplicate like is rejected with the code's Forbidden error; a
fresh like is an atomic set-add that appends the user and raises the
count by one, after which a second like by the same user is rejected.
Symmetrically, unliking without a prior like is rejected, and unliking
after a like removes the user from the set. -/
theorem darLike_quitarLike_disciplina :
    ∀ (store : List Publicacion) (id usuarioId : Nat) (p : Publicacion),
      findById store id = some p → p.eliminada = false →
      (usuarioId ∈ p.likes →
        darLike store id usuarioId =
          .error (.forbidden "Ya le diste like a esta publicación")) ∧
      (usuarioId ∉ p.likes →
        darLike store id usuarioId =
          .ok (updateById store id (fun q => { q with likes := addToSet q.likes usuarioId })) ∧
        findById (updateById store id (fun q => { q with likes := addToSet q.likes usuarioId })) id
          = some { p with likes := p.likes ++ [usuarioId] } ∧
        (p.likes ++ [usuarioId]).length = p.likes.length + 1 ∧
        darLike (updateById store id (fun q => { q with likes := addToSet q.likes usuarioId }))
            id usuarioId = .error (.forbidden "Ya le diste like a esta publicación")) ∧
      (usuarioId ∉ p.likes →
        quitarLike store id usuarioId =
          .error (.forbidden "No le has dado like a esta publicación")) ∧
      (usuarioId ∈ p.likes →
        quitarLike store id usuarioId =
          .ok (updateById store id (fun q => { q with likes := pull q.likes usuarioId })) ∧
        findById (updateById store id (fun q => { q with likes := pull q.likes usuarioId })) id
          = some { p with likes := pull p.likes usuarioId } ∧
        usuarioId ∉ pull p.likes usuarioId) := by
  intro store id usuarioId p hfind helim
  have hfLike : ∀ q : Publicacion,
      ({ q with likes := addToSet q.likes usuarioId } : Publicacion).pid = q.pid :=
    fun _ => rfl
  have hfPull : ∀ q : Publicacion,
      ({ q with likes := pull q.likes usuarioId } : Publicacion).pid = q.pid :=
    fun _ => rfl
  refine ⟨?_, ?_, ?_, ?_⟩
  · intro hmem
    have hany : p.likes.any (fun like => like == usuarioId) = true :=
      List.any_eq_true.mpr ⟨usuarioId, hmem, by simp⟩
    unfold darLike
    rw [hfind]
    simp [helim, hany]
  · intro hnot
    have hany : p.likes.any (fun like => like == usuarioId) = false := by
      rw [List.any_eq_false]
      intro x hx
      simp only [beq_iff_eq]
      rintro rfl
      exact hnot hx
    have haddset : addToSet p.likes usuarioId = p.likes ++ [usuarioId] := by
      unfold addToSet
      rw [if_neg]
      simpa using hnot
    have hfind' :
        findById (updateById store id (fun q => { q with likes := addToSet q.likes usuarioId })) id
          = some { p with likes := p.likes ++ [usuarioId] } := by
      rw [findById_updateById store id _ hfLike, hfind, Option.map_some', haddset]
    refine ⟨?_, hfind', by simp, ?_⟩
    · unfold darLike
      rw [hfind]
      simp [helim, hany]
    · have hany' : ((p.likes ++ [usuarioId]).any (fun like => like == usuarioId)) = true := by
        simp
      unfold darLike
      rw [hfind']
      simp [helim, hany']
  · intro hnot
    have hany : p.likes.any (fun like => like == usuarioId) = false := by
      rw [List.any_eq_false]
      intro x hx
      simp only [beq_iff_eq]
      rintro rfl
      exact hnot hx
    unfold quitarLike
    rw [hfind]
    simp [helim, hany]
  · intro hmem
    have hany : p.likes.any (fun like => like == usuarioId) = true :=
      List.any_eq_true.mpr ⟨usuarioId, hmem, by simp⟩
    refine ⟨?_, ?_, ?_⟩
    · unfold quitarLike
      rw [hfind]
      simp [helim, hany]
    · rw [findById_updateById store id _ hfPull, hfind, Option.map_some']
    · unfold pull
      simp

/-- A one-post store with no likes, for the like-twice scenario. -/
def tiendaLike : List Publicacion := [publicacionDePrueba 1 [] 5]

/-- Witness for C4: on a post with no likes, the first like succeeds and
leaves a like count of 1; the second like by the same user is rejected. -/
theorem darLike_quitarLike_testigo :
    darLike tiendaLike 1 7 =
      .ok (updateById tiendaLike 1 (fun q => { q with likes := addToSet q.likes 7 })) ∧
    findById (updateById tiendaLike 1 (fun q => { q with likes := addToSet q.likes 7 })) 1 =
      some { publicacionDePrueba 1 [] 5 with likes := [7] } ∧
    ([7] : List Nat).length = 1 ∧
    darLike (updateById tiendaLike 1 (fun q => { q with likes := addToSet q.likes 7 })) 1 7 =
      .error (.forbidden "Ya le diste like a esta publicación") := by
  have h := (darLike_quitarLike_disciplina tiendaLike 1 7 (publicacionDePrueba 1 [] 5)
    rfl rfl).2.1 (by simp [publicacionDePrueba])
  exact ⟨h.1, h.2.1, rfl, h.2.2.2⟩

/-! ## C6: soft delete -/

/-- C6.  Soft delete succeeds exactly for the author or an
`administrador` (Forbidden otherwise); afterwards no listed post carries
the deleted id, `obtenerPorId` answers NotFound, and the record is still
stored — flagged `eliminada` — with the store's length unchanged. -/
theorem eliminar_softdelete :
    ∀ (store : List Publicacion) (id usuarioId : Nat) (perfil : Option String)
      (p : Publicacion),
      findById store id = some p → p.eliminada = false →
      ((p.autor = usuarioId ∨ perfil = some "administrador") →
        eliminar store id usuarioId perfil =
          .ok (updateById store id (fun q => { q with eliminada := true })) ∧
        (∀ (ordenarPor : Option OrdenarPor) (usuarioFiltro offset limit : Option Nat),
          ∀ q ∈ obtenerTodas (updateById store id (fun q => { q with eliminada := true }))
              ordenarPor usuarioFiltro offset limit, q.pid ≠ id) ∧
        obtenerPorId (updateById store id (fun q => { q with eliminada := true })) id =
          .error (.notFound "Publicación no encontrada") ∧
        ({ p with eliminada := true } : Publicacion) ∈
          updateById store id (fun q => { q with eliminada := true }) ∧
        (updateById store id (fun q => { q with eliminada := true })).length = store.length) ∧
      ((p.autor ≠ usuarioId ∧ perfil ≠ some "administrador") →
        eliminar store id usuarioId perfil =
          .error (.forbidden "No tienes permisos para eliminar esta publicación")) := by
  intro store id usuarioId perfil p hfind helim
  have hfe : ∀ q : Publicacion, ({ q with eliminada := true } : Publicacion).pid = q.pid :=
    fun _ => rfl
  constructor
  · intro hperm
    refine ⟨?_, ?_, ?_, ?_, length_updateById store id _⟩
    · unfold eliminar
      rw [hfind]
      rcases hperm with h | h <;> simp [helim, h]
    · intro ordenarPor usuarioFiltro offset limit q hq
      unfold obtenerTodas at hq
      have h1 : q ∈ List.insertionSort (relacionOrden (ordenarPor.getD .fecha)) _ :=
        (List.drop_sublist _ _).subset ((List.take_sublist _ _).subset hq)
      have h2 := (List.mem_insertionSort _).mp h1
      rcases List.mem_filter.mp h2 with ⟨hqstore, hpred⟩
      have helimq : q.eliminada = false := by
        have h' := hpred
        simp only [Bool.and_eq_true] at h'
        simpa using h'.1
      unfold updateById at hqstore
      rcases List.mem_map.mp hqstore with ⟨p0, _, hp0eq⟩
      by_cases h : p0.pid = id
      · rw [if_pos (by simpa using h)] at hp0eq
        rw [← hp0eq] at helimq
        simp at helimq
      · rw [if_neg (by simpa using h)] at hp0eq
        rw [← hp0eq]
        exact h
    · unfold obtenerPorId
      rw [findById_updateById store id _ hfe, hfind, Option.map_some']
      simp
    · have hfind0 : store.find? (fun q => q.pid == id) = some p := hfind
      have hp : p ∈ store := List.mem_of_find?_eq_some hfind0
      have hpid := List.find?_some hfind0
      have hmem := List.mem_map_of_mem
        (fun q => if q.pid == id then { q with eliminada := true } else q) hp
      simpa [updateById, hpid] using hmem
  · intro ⟨hna, hnp⟩
    unfold eliminar
    rw [hfind]
    simp [helim, hna, hnp]

/-- A two-post store; post 1 belongs to user 1. -/
def tiendaEliminar : List Publicacion :=
  [publicacionDePrueba 1 [] 5, publicacionDePrueba 2 [] 6]

/-- Witness for C6: the author deletes post 1; it disappears from the
listing and from `obtenerPorId` but stays stored with the flag set. -/
theorem eliminar_softdelete_testigo :
    eliminar tiendaEliminar 1 1 none =
      .ok (updateById tiendaEliminar 1 (fun q => { q with eliminada := true })) ∧
    obtenerPorId (updateById tiendaEliminar 1 (fun q => { q with eliminada := true })) 1 =
      .error (.notFound "Publicación no encontrada") ∧
    ({ publicacionDePrueba 1 [] 5 with eliminada := true } : Publicacion) ∈
      updateById tiendaEliminar 1 (fun q => { q with eliminada := true }) ∧
    (updateById tiendaEliminar 1 (fun q => { q with eliminada := true })).length =
      tiendaEliminar.length ∧
    (∀ q ∈ obtenerTodas (updateById tiendaEliminar 1 (fun q => { q with eliminada := true }))
        none none none none, q.pid ≠ 1) := by
  have h := (eliminar_softdelete tiendaEliminar 1 1 none (publicacionDePrueba 1 [] 5)
    rfl rfl).1 (Or.inl rfl)
  exact ⟨h.1, h.2.2.1, h.2.2.2.1, h.2.2.2.2, fun q hq => h.2.1 none none none none q hq⟩

/-! ## C7: editing a comment

The permission/not-found discipline and the frame of `editarComentario`
hold as the spec says, but the modified flag does not: the comment
subdocument schema declares no `modificado` path, so Mongoose strips the
service's `modificado` writes on cast/save, and the flag the responses
report is always `false`.  The general theorem below states what the
program does persist (the text of the one matching comment, nothing
else); the claim's theorem then evaluates an edit concretely and shows
the follow-up listing still reporting `modificado = false` for the
edited comment. -/

/-- `editarComentario` answers NotFound for a missing or deleted post
and for a missing comment, Forbidden for a requester other than the
comment's author; on success (with distinct comment ids, as Mongo
guarantees for subdocument ids) the stored comment list becomes a map
that rewrites only the matching comment's text — every sibling, every
timestamp, and (for want of a schema path) every flag is untouched. -/
theorem editarComentario_solo_texto :
    ∀ (store : List Publicacion) (publicacionId comentarioId : Nat)
      (nuevoTexto : String) (usuarioId : Nat),
      (findById store publicacionId = none →
        editarComentario store publicacionId comentarioId nuevoTexto usuarioId =
          .error (.notFound "Publicación no encontrada")) ∧
      (∀ p, findById store publicacionId = some p → p.eliminada = true →
        editarComentario store publicacionId comentarioId nuevoTexto usuarioId =
          .error (.notFound "Publicación no encontrada")) ∧
      (∀ p, findById store publicacionId = some p → p.eliminada = false →
        p.comentarios.find? (fun c => c.cid == comentarioId) = none →
        editarComentario store publicacionId comentarioId nuevoTexto usuarioId =
          .error (.notFound "Comentario no encontrado")) ∧
      (∀ p c, findById store publicacionId = some p → p.eliminada = false →
        p.comentarios.find? (fun c => c.cid == comentarioId) = some c →
        c.autor ≠ usuarioId →
        editarComentario store publicacionId comentarioId nuevoTexto usuarioId =
          .error (.forbidden "No tienes permisos para editar este comentario")) ∧
      (∀ p c, findById store publicacionId = some p → p.eliminada = false →
        p.comentarios.find? (fun c => c.cid == comentarioId) = some c →
        c.autor = usuarioId →
        editarComentario store publicacionId comentarioId nuevoTexto usuarioId =
          .ok (updateById store publicacionId (fun q =>
            { q with comentarios :=
                actualizarComentarioEnLista comentarioId nuevoTexto q.comentarios })) ∧
        ((p.comentarios.map Comentario.cid).Nodup →
          actualizarComentarioEnLista comentarioId nuevoTexto p.comentarios =
            p.comentarios.map (fun d =>
              if d.cid = comentarioId then { d with comentario := nuevoTexto } else d) ∧
          ({ c with comentario := nuevoTexto } : Comentario) ∈
            actualizarComentarioEnLista comentarioId nuevoTexto p.comentarios ∧
          (∀ d ∈ p.comentarios, d.cid ≠ comentarioId →
            d ∈ actualizarComentarioEnLista comentarioId nuevoTexto p.comentarios))) := by
  intro store publicacionId comentarioId nuevoTexto usuarioId
  refine ⟨?_, ?_, ?_, ?_, ?_⟩
  · intro hnone
    unfold editarComentario
    rw [hnone]
  · intro p hfind helim
    unfold editarComentario
    rw [hfind]
    simp [helim]
  · intro p hfind helim hcom
    unfold editarComentario
    rw [hfind]
    simp [helim, hcom]
  · intro p c hfind helim hcom hautor
    unfold editarComentario
    rw [hfind]
    simp [helim, hcom, hautor]
  · intro p c hfind helim hcom hautor
    constructor
    · unfold editarComentario
      rw [hfind]
      simp [helim, hcom, hautor]
    · intro hnodup
      have hmapa := actualizarComentarioEnLista_eq_map comentarioId nuevoTexto
        p.comentarios hnodup
      have hc : c ∈ p.comentarios := List.mem_of_find?_eq_some hcom
      have hccid := List.find?_some hcom
      refine ⟨hmapa, ?_, ?_⟩
      · rw [hmapa]
        have := List.mem_map_of_mem (fun d =>
          if d.cid = comentarioId then { d with comentario := nuevoTexto } else d) hc
        simpa [(by simpa using hccid : c.cid = comentarioId)] using this
      · intro d hd hdne
        rw [hmapa]
        have := List.mem_map_of_mem (fun d =>
          if d.cid = comentarioId then { d with comentario := nuevoTexto } else d) hd
        simpa [hdne] using this

/-- A comment subdocument for the concrete examples. -/
def comentarioDePrueba (cid autor fecha : Nat) (texto : String) : Comentario :=
  { cid := cid, comentario := texto, autor := autor, fecha := fecha }

/-- A one-post store whose post carries two comments by users 4 and 6. -/
def tiendaComentarios : List Publicacion :=
  [{ publicacionDePrueba 1 [] 5 with
      comentarios := [comentarioDePrueba 1 4 10 "hola", comentarioDePrueba 2 6 20 "chau"] }]

/-- The two comment authors of `tiendaComentarios`, as stored users. -/
def usuariosEjemplo : List User :=
  [{ uid := 4, nombre := "Ana", apellido := "Diaz", correo := "ana@example.com",
     nombreUsuario := "ana", contrasena := "Password1", activo := true,
     perfil := "usuario", imagenPerfil := none },
   { uid := 6, nombre := "Beto", apellido := "Ruiz", correo := "beto@example.com",
     nombreUsuario := "beto", contrasena := "Password2", activo := true,
     perfil := "usuario", imagenPerfil := none }]

/-- The store after user 4 edits comment 1: the text is replaced, the
sibling and both timestamps are verbatim — and no modified flag exists
to be set. -/
def tiendaComentariosEditada : List Publicacion :=
  [{ publicacionDePrueba 1 [] 5 with
      comentarios := [{ comentarioDePrueba 1 4 10 "hola" with comentario := "nuevo" },
                      comentarioDePrueba 2 6 20 "chau"] }]

/-- C7 evaluated at the failing input.  User 4 edits their comment 1:
the edit succeeds and persists exactly the text change (sibling comment
and timestamps verbatim), but the follow-up listing still reports
`modificado = false` for the edited comment — the flag the claim says is
set to true is never stored, because the schema has no `modificado`
path. -/
theorem editarComentario_no_persiste_modificado :
    editarComentario tiendaComentarios 1 1 "nuevo" 4 = .ok tiendaComentariosEditada ∧
    obtenerComentarios tiendaComentariosEditada usuariosEjemplo 1 none none =
      .ok { comentarios :=
              [{ id := 2, comentario := "chau", fecha := 20, modificado := false,
                 autor := some { id := 6, nombre := "Beto", apellido := "Ruiz",
                                 nombreUsuario := "beto", imagenPerfil := none } },
               { id := 1, comentario := "nuevo", fecha := 10, modificado := false,
                 autor := some { id := 4, nombre := "Ana", apellido := "Diaz",
                                 nombreUsuario := "ana", imagenPerfil := none } }]
            total := 2
            offset := 0
            limit := 10 } := by
  constructor
  · rfl
  · rfl

/-! ## C8: listing comments -/

/-- C8.  `obtenerComentarios` answers the post's comments sorted by
timestamp newest-first (a permutation of the stored list, pairwise
descending), sliced by `offset`/`limit` with defaults 0/10, each mapped
through the author projection; `total` is the full stored count. -/
theorem obtenerComentarios_orden :
    ∀ (store : List Publicacion) (users : List User) (publicacionId : Nat)
      (offset limit : Option Nat) (p : Publicacion),
      findById store publicacionId = some p → p.eliminada = false →
      obtenerComentarios store users publicacionId offset limit =
        .ok { comentarios :=
                (((List.insertionSort (geNat Comentario.fecha) p.comentarios).drop
                  (offset.getD 0)).take (limit.getD 10)).map (formatearComentario users)
              total := p.comentarios.length
              offset := offset.getD 0
              limit := limit.getD 10 } ∧
      List.Perm (List.insertionSort (geNat Comentario.fecha) p.comentarios) p.comentarios ∧
      (List.insertionSort (geNat Comentario.fecha) p.comentarios).Pairwise
        (fun a b => b.fecha ≤ a.fecha) ∧
      ((((List.insertionSort (geNat Comentario.fecha) p.comentarios).drop
          (offset.getD 0)).take (limit.getD 10)).map (formatearComentario users)).Pairwise
        (fun a b => b.fecha ≤ a.fecha) := by
  intro store users publicacionId offset limit p hfind helim
  have hsorted : (List.insertionSort (geNat Comentario.fecha) p.comentarios).Pairwise
      (fun a b => b.fecha ≤ a.fecha) :=
    List.sorted_insertionSort (geNat Comentario.fecha) p.comentarios
  refine ⟨?_, List.perm_insertionSort _ _, hsorted, ?_⟩
  · unfold obtenerComentarios
    rw [hfind]
    simp [helim]
  · rw [List.pairwise_map]
    exact List.Pairwise.sublist
      ((List.take_sublist _ _).trans (List.drop_sublist _ _)) hsorted

/-- Witness for C8: the two comments (timestamps 10 and 20) come back
newest first with their author projections, and `total` is 2. -/
theorem obtenerComentarios_orden_testigo :
    obtenerComentarios tiendaComentarios usuariosEjemplo 1 none none =
      .ok { comentarios :=
              [{ id := 2, comentario := "chau", fecha := 20, modificado := false,
                 autor := some { id := 6, nombre := "Beto", apellido := "Ruiz",
                                 nombreUsuario := "beto", imagenPerfil := none } },
               { id := 1, comentario := "hola", fecha := 10, modificado := false,
                 autor := some { id := 4, nombre := "Ana", apellido := "Diaz",
                                 nombreUsuario := "ana", imagenPerfil := none } }]
            total := 2
            offset := 0
            limit := 10 } := by
  exact (obtenerComentarios_orden tiendaComentarios usuariosEjemplo 1 none none
    ({ publicacionDePrueba 1 [] 5 with
        comentarios := [comentarioDePrueba 1 4 10 "hola", comentarioDePrueba 2 6 20 "chau"] })
    rfl rfl).1

/-! ## C9: the top-posts statistics view -/

/-- C9.  The view has at most 20 rows, ordered by comment count
descending; each row comes from a stored post joined to its author, with
the body truncated to 50 characters and a missing comments array counted
as 0. -/
theorem estadisticas_topPublicaciones :
    ∀ (pubs : List PublicacionCruda) (users : List User),
      (getComentariosPorPublicacion pubs users).length ≤ 20 ∧
      (getComentariosPorPublicacion pubs users).Pairwise
        (fun a b => b.totalComentarios ≤ a.totalComentarios) ∧
      (∀ fila ∈ getComentariosPorPublicacion pubs users,
        ∃ p ∈ pubs, ∃ u ∈ users,
          u.uid = p.autor ∧ fila = filaDe p u ∧
          (p.comentarios = none → fila.totalComentarios = 0)) := by
  intro pubs users
  refine ⟨List.length_take_le _ _, ?_, ?_⟩
  · exact List.Pairwise.sublist (List.take_sublist _ _)
      (List.sorted_insertionSort (geNat FilaComentariosPorPublicacion.totalComentarios) _)
  · intro fila hfila
    have h1 : fila ∈ List.insertionSort
        (geNat FilaComentariosPorPublicacion.totalComentarios) _ :=
      (List.take_sublist _ _).subset hfila
    have h2 := (List.mem_insertionSort _).mp h1
    rcases List.mem_filterMap.mp h2 with ⟨p, hp, hfp⟩
    refine ⟨p, hp, ?_⟩
    rcases hu : users.find? (fun u => u.uid == p.autor) with _ | u
    · rw [hu] at hfp
      exact absurd hfp (by simp)
    · rw [hu] at hfp
      have humem : u ∈ users := List.mem_of_find?_eq_some hu
      have huuid := List.find?_some hu
      have hfila_eq : fila = filaDe p u := by
        have := hfp
        simpa using this.symm
      refine ⟨u, humem, by simpa using huuid, hfila_eq, ?_⟩
      intro hnone
      rw [hfila_eq]
      simp [filaDe, hnone]

/-- Two raw posts: one with one comment, one with a missing comments
array. -/
def publicacionesCrudas : List PublicacionCruda :=
  [{ pid := 1, contenido := "abc", autor := 4, comentarios := some [comentarioDePrueba 1 4 10 "x"] },
   { pid := 2, contenido := "def", autor := 6, comentarios := none }]

set_option maxRecDepth 4096 in
/-- Witness for C9: the concrete view lists the 1-comment post first and
counts the missing array as 0. -/
theorem estadisticas_topPublicaciones_testigo :
    (getComentariosPorPublicacion publicacionesCrudas usuariosEjemplo).length ≤ 20 ∧
    getComentariosPorPublicacion publicacionesCrudas usuariosEjemplo =
      [{ pid := 1, contenido := "abc", totalComentarios := 1, nombreUsuario := "ana" },
       { pid := 2, contenido := "def", totalComentarios := 0, nombreUsuario := "beto" }] := by
  exact ⟨(estadisticas_topPublicaciones publicacionesCrudas usuariosEjemplo).1, rfl⟩

/-! ## C10: a soft-deleted post is immutable -/

/-- C10.  Every mutating operation applied to a post whose `eliminada`
flag is set answers NotFound (so no `.ok` store is ever produced and the
stored documents stay as they are), whatever the requester or payload. -/
theorem publicacionEliminadaInmutable :
    ∀ (store : List Publicacion) (id : Nat) (p : Publicacion),
      findById store id = some p → p.eliminada = true →
      ∀ (dto : ActualizarPublicacionDto) (usuarioId : Nat) (perfil : Option String)
        (texto nuevoTexto : String) (ahora freshId comentarioId : Nat),
        actualizar store id dto usuarioId = .error (.notFound "Publicación no encontrada") ∧
        eliminar store id usuarioId perfil = .error (.notFound "Publicación no encontrada") ∧
        darLike store id usuarioId = .error (.notFound "Publicación no encontrada") ∧
        quitarLike store id usuarioId = .error (.notFound "Publicación no encontrada") ∧
        agregarComentario store id texto usuarioId ahora freshId =
          .error (.notFound "Publicación no encontrada") ∧
        editarComentario store id comentarioId nuevoTexto usuarioId =
          .error (.notFound "Publicación no encontrada") := by
  intro store id p hfind helim dto usuarioId perfil texto nuevoTexto ahora freshId comentarioId
  refine ⟨?_, ?_, ?_, ?_, ?_, ?_⟩
  · unfold actualizar
    rw [hfind]
    simp [helim]
  · unfold eliminar
    rw [hfind]
    simp [helim]
  · unfold darLike
    rw [hfind]
    simp [helim]
  · unfold quitarLike
    rw [hfind]
    simp [helim]
  · unfold agregarComentario
    rw [hfind]
    simp [helim]
  · unfold editarComentario
    rw [hfind]
    simp [helim]

/-- A store holding one soft-deleted post. -/
def tiendaEliminada : List Publicacion :=
  [{ publicacionDePrueba 1 [] 5 with eliminada := true }]

/-- Witness for C10: each of the six mutations on the soft-deleted post
answers NotFound — even for the author (user 1) and an administrator. -/
theorem publicacionEliminadaInmutable_testigo :
    actualizar tiendaEliminada 1 { titulo := none, contenido := none, imagen := none } 1 =
      .error (.notFound "Publicación no encontrada") ∧
    eliminar tiendaEliminada 1 1 (some "administrador") =
      .error (.notFound "Publicación no encontrada") ∧
    darLike tiendaEliminada 1 1 = .error (.notFound "Publicación no encontrada") ∧
    quitarLike tiendaEliminada 1 1 = .error (.notFound "Publicación no encontrada") ∧
    agregarComentario tiendaEliminada 1 "t" 1 30 9 =
      .error (.notFound "Publicación no encontrada") ∧
    editarComentario tiendaEliminada 1 1 "n" 1 =
      .error (.notFound "Publicación no encontrada") :=
  publicacionEliminadaInmutable tiendaEliminada 1
    ({ publicacionDePrueba 1 [] 5 with eliminada := true }) rfl rfl
    { titulo := none, contenido := none, imagen := none } 1 (some "administrador") "t" "n" 30 9 1

end ProyectoRedes
